import Mathlib

/-!
Verification development for the MSB-1 configurator repository.

The generator stage (gen-downlinks.py) matches each device specification
row against a static decision table, encodes an ordered list of hex
downlink commands, and groups them into server blocks.  The transmitter
stage (msb-ug6x-conf.py) authenticates against each server block and
enqueues the downlinks through a REST API, modelled here by an abstract
response environment.  All definitions below are shallow embeddings of
the corresponding Python functions; machine integers are modelled by Nat
and Int, pressures by the rationals, and fallible code by Except.
-/

/-! ## Python string primitives

The Python methods str.strip, str.split, str.lower and str.upper are
modelled structurally on the character list of the string so that every
definition evaluates inside the kernel. -/

/-- Drop leading whitespace characters. -/
def dropWhileWs : List Char → List Char
  | [] => []
  | c :: cs => if c.isWhitespace then dropWhileWs cs else c :: cs

/-- Python str.strip(): remove leading and trailing whitespace. -/
def pyStrip (s : String) : String :=
  String.mk ((dropWhileWs (dropWhileWs s.data).reverse).reverse)

/-- Python str.split(sep) for a one-character separator: split on every
occurrence, keeping empty fields. -/
def pySplitChars (sep : Char) : List Char → List (List Char)
  | [] => [[]]
  | x :: xs =>
      let rest := pySplitChars sep xs
      if x = sep then [] :: rest
      else
        match rest with
        | [] => [[x]]
        | g :: gs => (x :: g) :: gs

/-- Python str.split(sep) on a string, as a list of strings. -/
def pySplit (sep : Char) (s : String) : List String :=
  (pySplitChars sep s.data).map String.mk

/-- Python str.lower(). -/
def pyLower (s : String) : String :=
  String.mk (s.data.map Char.toLower)

/-- Python str.upper(). -/
def pyUpper (s : String) : String :=
  String.mk (s.data.map Char.toUpper)

/-! ## Hex rendering (gen-downlinks.py, tohex) -/

/-- The character list of the Python expression hex(value) for a
non-negative value: the prefix 0x followed by the lowercase base-16
digits of the value. -/
def pyHexChars (value : Nat) : List Char :=
  '0' :: 'x' :: Nat.toDigits 16 value

/-- The Python format expression producing value as lowercase hex digits,
left-padded with zeros up to width zpad (no truncation when the natural
representation is longer). -/
def hexPad (value : Nat) (zpad : Nat) : String :=
  String.mk
    (List.replicate (zpad - (Nat.toDigits 16 value).length) '0'
      ++ Nat.toDigits 16 value)

/-- Embedding of tohex (gen-downlinks.py lines 198-224).  The local l is
the length of the slice hex(value)[:2] exactly as written in the source;
zpad = none models the Python default None, some z an integer argument.
A raised ValueError is modelled as Except.error. -/
def tohex (value : Nat) (zpad : Option Int) : Except String String :=
  let l := ((pyHexChars value).take 2).length
  match zpad with
  | none =>
      let z := if l % 2 = 0 then l else l + 1
      Except.ok (hexPad value z)
  | some z =>
      if (l : Int) > z then
        Except.error
          "ValueError: zero-padding zpad cannot be smaller as number of hex-digits"
      else
        Except.ok (hexPad value z.toNat)

/-! ## Steam trap types (_types/steamtraps.py) -/

/-- The SteamTrapTypes IntEnum members. -/
inductive SteamTrapTypes where
  | BK
  | MK
  | UNA
deriving DecidableEq, Repr

/-- Integer value of each enum member (BK = 0, MK = 1, UNA = 2). -/
def SteamTrapTypes.value : SteamTrapTypes → Nat
  | .BK => 0
  | .MK => 1
  | .UNA => 2

/-- Description attribute of each enum member. -/
def SteamTrapTypes.description : SteamTrapTypes → String
  | .BK => "bimetallic"
  | .MK => "membrane"
  | .UNA => "ball-float"

/-- Embedding of SteamTrapTypes.get_member_by_description: strip the
argument, scan the members in declaration order, raise KeyError (modelled
as Except.error) when no description matches. -/
def SteamTrapTypes.get_member_by_description (d : String) :
    Except String SteamTrapTypes :=
  let d := pyStrip d
  if SteamTrapTypes.BK.description = d then Except.ok SteamTrapTypes.BK
  else if SteamTrapTypes.MK.description = d then Except.ok SteamTrapTypes.MK
  else if SteamTrapTypes.UNA.description = d then Except.ok SteamTrapTypes.UNA
  else Except.error "KeyError: There is no member with such description."

/-! ## Data model -/

/-- One row of the pressure-temperature sheet (columns p-bar and
t-celsius after import). -/
structure PTRow where
  pBar : ℚ
  tCelsius : Nat
deriving DecidableEq, Repr

/-- One row of the decision (Conf-Table) sheet: four categorical keys,
the pressure window, and the numeric thresholds used by the encoder. -/
structure DecisionRow where
  steamTrapType : String
  mountingType : String
  hardwareModel : String
  condensateLoad : String
  pMin : ℚ
  pMax : ℚ
  tv : Nat
  lv : Nat
  slth0 : Nat
  slval0 : Nat
  slth1 : Nat
  slval1 : Nat
  slth2 : Nat
  slval2 : Nat
deriving DecidableEq, Repr

/-- One row of the user device specification table. -/
structure DeviceSpec where
  deveui : String
  server : String
  steamTrapType : String
  mountingType : String
  hardwareModel : String
  dn : Int
  differentialPressure : ℚ
  condensateLoad : String
deriving DecidableEq, Repr

/-- The configuration values of config.yaml that the generator main
script and build_downlinks read. -/
structure Config where
  server : String
  fport : Nat
  confirmed : Bool
  flushQueue : Bool
  resetErrorCounters : Bool
  uplinkFrequency : Nat
deriving DecidableEq, Repr

/-! ## Nearest pressure lookup (gen-downlinks.py line 258) -/

/-- Embedding of (pt_table[p-bar] - pressure).abs().idxmin(): scan the
table left to right and keep the first row attaining the minimal absolute
difference (pandas idxmin returns the first occurrence of the minimum);
none on the empty table, where pandas raises. -/
def nearestPT (pressure : ℚ) : List PTRow → Option PTRow
  | [] => none
  | r :: rs =>
      match nearestPT pressure rs with
      | none => some r
      | some b =>
          if |b.pBar - pressure| < |r.pBar - pressure| then some b else some r

/-! ## Downlink encoder (gen-downlinks.py, build_downlinks) -/

/-- Embedding of build_downlinks (gen-downlinks.py lines 227-290).  The
globals config and pt_table become the explicit parameters cfg and
pt_table; row, pressure and dn are the three declared parameters of the
Python function.  Python f-string interpolation of the integer stidx is
decimal rendering (toString); the two .lower() calls of the source are
kept as pyLower.  A raised exception anywhere in the body is
modelled by Except.error. -/
def build_downlinks (cfg : Config) (pt_table : List PTRow)
    (row : DecisionRow) (pressure : ℚ) (dn : Int) :
    Except String (List String) := do
  -- set the minimal uplink frequency to speed-up the configuration process
  let d0 ← tohex (Nat.lor 0x01000000 149) (some 8)
  -- set the steam-trap-type
  let st ← SteamTrapTypes.get_member_by_description row.steamTrapType
  let stidx := st.value
  let d1 := "0a5" ++ toString stidx
  -- set the saturated steam temperature (nearest row of the PT table)
  let ptr ← match nearestPT pressure pt_table with
    | some ptr => Except.ok ptr
    | none => Except.error "ValueError: attempt to get argmin of an empty sequence"
  let d2 := "82" ++ (← tohex ptr.tCelsius (some 2))
  -- set noise thresholds
  let d3 := "830" ++ toString stidx ++ "00" ++ (← tohex row.tv (some 2))
  let d4 := "830" ++ toString stidx ++ "01" ++ (← tohex row.lv (some 2))
  -- set steam-loss thresholds and corresponding steam-loss values
  let c : Nat := if stidx = SteamTrapTypes.UNA.value ∧ dn ≥ 40 then 4 else 1
  let d5 := pyLower ("8d0" ++ toString stidx ++ "00" ++ (← tohex row.slth0 (some 2)))
  let d6 := pyLower ("8d0" ++ toString stidx ++ "01" ++ (← tohex (row.slval0 * c) (some 2)))
  let d7 := "8d0" ++ toString stidx ++ "02" ++ (← tohex row.slth1 (some 2))
  let d8 := "8d0" ++ toString stidx ++ "03" ++ (← tohex (row.slval1 * c) (some 2))
  let d9 := "8d0" ++ toString stidx ++ "04" ++ (← tohex row.slth2 (some 2))
  let d10 := "8d0" ++ toString stidx ++ "05" ++ (← tohex (row.slval2 * c) (some 2))
  -- set counters thresholds
  let d11 := "8402" ++ (← tohex 36 (some 4))
  let d12 := "8502" ++ (← tohex 72 (some 4))
  -- reset counters and set uplink frequency back to desired sample period
  let resetPart := if cfg.resetErrorCounters then ["04fc"] else []
  let d13 ← tohex (Nat.lor 0x01000000 cfg.uplinkFrequency) (some 8)
  return [d0, d1, d2, d3, d4, d5, d6, d7, d8, d9, d10, d11, d12]
    ++ resetPart ++ [d13]

/-! ## Row matching (gen-downlinks.py main loop, lines 365-392) -/

/-- The first matching layer: the loop over the four match_params columns
with equality tests, a break on the first difference meaning the
conjunction of the four equalities. -/
def categoricalMatch (dev : DeviceSpec) (r : DecisionRow) : Bool :=
  dev.steamTrapType == r.steamTrapType
    && dev.mountingType == r.mountingType
    && dev.hardwareModel == r.hardwareModel
    && dev.condensateLoad == r.condensateLoad

/-- The second matching layer: pressure >= p-min and pressure <= p-max,
both bounds inclusive. -/
def pressureMatch (dev : DeviceSpec) (r : DecisionRow) : Bool :=
  decide (dev.differentialPressure ≥ r.pMin)
    && decide (dev.differentialPressure ≤ r.pMax)

/-- A full match: categorical layer and pressure layer together. -/
def fullMatch (dev : DeviceSpec) (r : DecisionRow) : Bool :=
  categoricalMatch dev r && pressureMatch dev r

/-- The decision-row scan of the main loop: iterate the table in order
and stop (break) at the first row passing both matching layers; none when
the table is exhausted. -/
def matchDecision (dev : DeviceSpec) : List DecisionRow → Option DecisionRow
  | [] => none
  | r :: rs => if fullMatch dev r then some r else matchDecision dev rs

/-! ## No-match warnings (gen-downlinks.py lines 469-480) -/

/-- The warning emissions of the decision scan for one device: the inner
branch warns when a row passes the categorical layer, fails the pressure
layer, and its positional index equals the last table index (line 471);
the for-else branch warns once more when the loop finishes without a
break (line 476).  The result counts the warnings emitted for the
device. -/
def warnScan (dev : DeviceSpec) (lastIdx : Nat) :
    Nat → List DecisionRow → Nat
  | _, [] => 1
  | i, r :: rs =>
      if categoricalMatch dev r then
        if pressureMatch dev r then 0
        else (if i = lastIdx then 1 else 0) + warnScan dev lastIdx (i + 1) rs
      else warnScan dev lastIdx (i + 1) rs

/-- Number of no-full-match warnings the main loop emits for one device
while scanning the whole decision table. -/
def deviceWarnings (dev : DeviceSpec) (tbl : List DecisionRow) : Nat :=
  warnScan dev (tbl.length - 1) 0 tbl

/-! ## Server aggregation (gen-downlinks.py lines 393-466) -/

/-- A Python port value: the no-colon branch stores an int, the
host-colon-port branch stores the split string unchanged. -/
inductive PyPort where
  | num (n : Nat)
  | str (s : String)
deriving DecidableEq, Repr

/-- One element of the generated server list. -/
structure ServerBlock where
  host : String
  port : PyPort
  username : String
  password : String
  fport : Nat
  confirmed : Bool
  flushQueue : Bool
  downlinks : List (String × List String)
deriving DecidableEq, Repr

/-- Embedding of the new-server address computation (lines 413-436).  The
source first strips a leading scheme from a local variable, then rebinds
that variable to row-server stripped and split on the colon, discarding
the scheme removal; the dead binding is kept here as _schemeStripped.
A string without a colon selects port 8080 when the configured server is
ug6x and the fallback 443 otherwise; host colon port keeps the split
string as port; more than two elements raises ValueError. -/
def parse_server_address (cfg : Config) (raw : String) :
    Except String (String × PyPort) :=
  let server := pyStrip raw
  let _schemeStripped :=
    if server.startsWith "http://" then server.drop ("http://".length)
    else if server.startsWith "https://" then server.drop ("https://".length)
    else server
  match pySplit ':' (pyStrip raw) with
  | [host] =>
      Except.ok
        (host, if pyLower cfg.server = "ug6x" then PyPort.num 8080 else PyPort.num 443)
  | [host, port] => Except.ok (host, PyPort.str port)
  | _ => Except.error "ValueError: Server address contains to many elements"

/-- Embedding of the aggregation step for one matched device (lines
393-466).  The loop over the existing server list compares the raw
row-server string against each stored host; on the first hit the source
calls build_downlinks with four positional arguments although the
function declares three, so Python raises TypeError before any update
happens.  Otherwise the for-else branch parses the address and appends a
new block whose downlinks mapping holds this device; there the source
passes config resetErrorCounters as the third positional argument dn,
which Python coerces from bool to the integer 0 or 1. -/
def add_device_downlinks (cfg : Config) (pt_table : List PTRow)
    (dct : List ServerBlock) (dev : DeviceSpec) (row : DecisionRow) :
    Except String (List ServerBlock) :=
  if (dct.find? (fun s => dev.server == s.host)).isSome then
    Except.error
      "TypeError: build_downlinks takes 3 positional arguments but 4 were given"
  else do
    let (host, port) ← parse_server_address cfg dev.server
    let dls ← build_downlinks cfg pt_table row dev.differentialPressure
      (if cfg.resetErrorCounters then 1 else 0)
    Except.ok (dct ++ [{
      host := host, port := port,
      username := "apiuser", password := "password",
      fport := cfg.fport, confirmed := cfg.confirmed,
      flushQueue := cfg.flushQueue,
      downlinks := [(dev.deveui, dls)] }])

/-! ## Transmitter (msb-ug6x-conf.py) -/

/-- An HTTP response as the transmitter observes it. -/
structure HResponse where
  status : Nat
deriving DecidableEq, Repr

/-- The abstract REST environment of one transmitter run: the result of
the login call and of every queue-downlink call, where Except.error
stands for a transport exception raised by the call itself. -/
structure ApiWorld where
  login : String → String → Except String HResponse
  queue : String → String → Except String HResponse

/-- Embedding of the trycatchcall wrapper (msb-ug6x-conf.py lines
93-178): the wrapped call either raises (logged, wrapper falls through)
or returns a response on which raise_for_status raises for an error
status (logged, wrapper falls through); in both failure cases the wrapper
returns Python None, modelled as none. -/
def trycatchcall (call : Except String HResponse) : Option HResponse :=
  match call with
  | Except.error _ => none
  | Except.ok resp => if 400 ≤ resp.status then none else some resp

/-- Embedding of the per-downlink loop (lines 477-502): each
queue_downlink call goes through trycatchcall; a None result makes the
status_code attribute access raise AttributeError, which the inner
try-except catches and logs before the loop continues; only status 200
increments the global downlink counter. -/
def queueDeviceDownlinks (w : ApiWorld) (devEUI : String)
    (dls : List String) (n : Nat) : Nat :=
  dls.foldl
    (fun m dl =>
      match trycatchcall (w.queue devEUI dl) with
      | some r => if r.status = 200 then m + 1 else m
      | none => m)
    n

/-- Embedding of one iteration of the server loop (lines 400-534).  The
login call result passes through trycatchcall; when that yields None the
attribute access response.status_code on line 432 raises AttributeError
outside every try block, an uncaught exception modelled as Except.error.
A non-200 response reaching the check makes the loop continue with the
next server (the block is skipped).  Otherwise every device of the block
is processed inside its own try-except (flush and backup steps do not
affect the downlink counter), so the device loop never raises. -/
def process_server (w : ApiWorld) (s : ServerBlock) (n : Nat) :
    Except String Nat :=
  match trycatchcall (w.login s.username s.password) with
  | none =>
      Except.error
        "AttributeError: NoneType object has no attribute status_code"
  | some resp =>
      if resp.status ≠ 200 then Except.ok n
      else
        Except.ok
          (s.downlinks.foldl
            (fun acc devdl =>
              queueDeviceDownlinks w (pyUpper (pyStrip devdl.1)) devdl.2 acc)
            n)

/-- The whole transmitter run over the server list of the input document:
an uncaught exception in any server iteration aborts the run. -/
def process_all (w : ApiWorld) (servers : List ServerBlock) :
    Except String Nat :=
  servers.foldlM (fun n s => process_server w s n) 0

/-! ## Concrete example data

Used by the closed evaluation theorems and the witnesses below.  The PT
table has one row so that the nearest lookup needs no rational
arithmetic during kernel evaluation. -/

/-- Example configuration: ug6x local gateway, reset flag set, 600 s
steady uplink frequency. -/
def cfgEx : Config := ⟨"ug6x", 2, true, true, true, 600⟩

/-- Example decision row: ball-float trap, window 0..10 bar, slval1 = 3. -/
def rowEx : DecisionRow :=
  ⟨"ball-float", "flanged", "MSB-1", "low", 0, 10, 10, 5, 20, 3, 30, 3, 40, 2⟩

/-- Example one-row pressure temperature table (5 bar, 158 celsius). -/
def ptEx : List PTRow := [⟨5, 158⟩]

/-- Example device on server gateway, pipe size 50, pressure 5 bar. -/
def devEx : DeviceSpec :=
  ⟨"11AA", "gateway", "ball-float", "flanged", "MSB-1", 50, 5, "low"⟩

/-- A second device with the same server host string as devEx. -/
def devEx2 : DeviceSpec :=
  ⟨"22BB", "gateway", "ball-float", "flanged", "MSB-1", 40, 5, "low"⟩

/-- A decision row failing the categorical layer against devEx. -/
def rowCatFail : DecisionRow :=
  ⟨"bimetallic", "flanged", "MSB-1", "low", 0, 10, 10, 5, 20, 3, 30, 3, 40, 2⟩

/-- A decision row matching devEx categorically whose pressure window
20..30 excludes the device pressure 5. -/
def rowPressFail : DecisionRow :=
  ⟨"ball-float", "flanged", "MSB-1", "low", 20, 30, 10, 5, 20, 3, 30, 3, 40, 2⟩

/-- A PT table with a tie: rows at 1 bar and 3 bar are equidistant from
the target pressure 2 bar. -/
def ptTie : List PTRow := [⟨1, 100⟩, ⟨3, 120⟩]

/-- A REST environment whose login calls answer HTTP 401. -/
def wBad : ApiWorld :=
  ⟨fun _ _ => Except.ok ⟨401⟩, fun _ _ => Except.ok ⟨200⟩⟩

/-- A REST environment with successful logins where queueing the
downlink 02 raises a transport error and every other call returns 200. -/
def wGood : ApiWorld :=
  ⟨fun _ _ => Except.ok ⟨200⟩,
   fun _ dl => if dl = "02" then Except.error "boom" else Except.ok ⟨200⟩⟩

/-- First transmitter server block: one device with downlinks 01, 02. -/
def sEx1 : ServerBlock :=
  ⟨"gw1", PyPort.num 8080, "apiuser", "password", 2, true, true,
   [("dev1", ["01", "02"])]⟩

/-- Second transmitter server block: one device with downlink 03. -/
def sEx2 : ServerBlock :=
  ⟨"gw2", PyPort.num 8080, "apiuser", "password", 2, true, true,
   [("dev2", ["03"])]⟩

/-! ## Helper lemmas -/

/-- The slice hex(value)[:2] always has length 2: it is the 0x prefix. -/
theorem pyHex_take2 (v : Nat) : ((pyHexChars v).take 2).length = 2 := rfl

/-- For an integer width of at least 2, tohex never raises and returns
the zero-padded hex rendering. -/
theorem tohex_some_eq (v : Nat) (z : Int) (hz : 2 ≤ z) :
    tohex v (some z) = Except.ok (hexPad v z.toNat) := by
  unfold tohex
  rw [pyHex_take2]
  dsimp only
  rw [if_neg (by omega)]

/-- With the default width None, tohex pads to two digits. -/
theorem tohex_none_eq (v : Nat) : tohex v none = Except.ok (hexPad v 2) := by
  unfold tohex
  rw [pyHex_take2]
  dsimp only
  rfl

/-- For an integer width below 2 the ValueError branch is taken. -/
theorem tohex_some_err (v : Nat) (z : Int) (hz : z < 2) :
    tohex v (some z) =
      Except.error
        "ValueError: zero-padding zpad cannot be smaller as number of hex-digits" := by
  unfold tohex
  rw [pyHex_take2]
  dsimp only
  rw [if_pos (by omega)]

/-- Structure of the encoder output: when the steam-trap-type lookup and
the PT lookup succeed, build_downlinks returns the explicit command list
of the source, with the correction factor applied to all three slval
fields. -/
theorem build_downlinks_eq (cfg : Config) (pt : List PTRow) (row : DecisionRow)
    (p : ℚ) (dn : Int) (st : SteamTrapTypes) (ptr : PTRow)
    (hst : SteamTrapTypes.get_member_by_description row.steamTrapType = Except.ok st)
    (hpt : nearestPT p pt = some ptr) :
    build_downlinks cfg pt row p dn = Except.ok (
      [hexPad (Nat.lor 0x01000000 149) 8,
       "0a5" ++ toString st.value,
       "82" ++ hexPad ptr.tCelsius 2,
       "830" ++ toString st.value ++ "00" ++ hexPad row.tv 2,
       "830" ++ toString st.value ++ "01" ++ hexPad row.lv 2,
       pyLower ("8d0" ++ toString st.value ++ "00" ++ hexPad row.slth0 2),
       pyLower ("8d0" ++ toString st.value ++ "01" ++ hexPad (row.slval0 *
         (if st.value = SteamTrapTypes.UNA.value ∧ dn ≥ 40 then 4 else 1)) 2),
       "8d0" ++ toString st.value ++ "02" ++ hexPad row.slth1 2,
       "8d0" ++ toString st.value ++ "03" ++ hexPad (row.slval1 *
         (if st.value = SteamTrapTypes.UNA.value ∧ dn ≥ 40 then 4 else 1)) 2,
       "8d0" ++ toString st.value ++ "04" ++ hexPad row.slth2 2,
       "8d0" ++ toString st.value ++ "05" ++ hexPad (row.slval2 *
         (if st.value = SteamTrapTypes.UNA.value ∧ dn ≥ 40 then 4 else 1)) 2,
       "8402" ++ hexPad 36 4,
       "8502" ++ hexPad 72 4]
      ++ (if cfg.resetErrorCounters then ["04fc"] else [])
      ++ [hexPad (Nat.lor 0x01000000 cfg.uplinkFrequency) 8]) := by
  unfold build_downlinks
  rw [hst, hpt]
  simp only [tohex_some_eq _ 8 (by omega), tohex_some_eq _ 2 (by omega),
    tohex_some_eq _ 4 (by omega)]
  rfl

/-- A full match is the conjunction of the four categorical equalities
and the inclusive pressure window. -/
theorem fullMatch_iff (dev : DeviceSpec) (r : DecisionRow) :
    fullMatch dev r = true ↔
      (dev.steamTrapType = r.steamTrapType ∧ dev.mountingType = r.mountingType ∧
       dev.hardwareModel = r.hardwareModel ∧ dev.condensateLoad = r.condensateLoad ∧
       r.pMin ≤ dev.differentialPressure ∧ dev.differentialPressure ≤ r.pMax) := by
  simp [fullMatch, categoricalMatch, pressureMatch, Bool.and_eq_true,
    beq_iff_eq, decide_eq_true_iff, and_assoc, ge_iff_le]

/-- The nearest-pressure lookup yields none exactly on the empty table. -/
theorem nearestPT_eq_none_iff (p : ℚ) (tbl : List PTRow) :
    nearestPT p tbl = none ↔ tbl = [] := by
  cases tbl with
  | nil => simp [nearestPT]
  | cons r rs =>
      simp only [nearestPT]
      cases h : nearestPT p rs with
      | none => simp [h]
      | some b =>
          simp only [h]
          split <;> simp

/-! ## Claim theorems -/

/-- Claim C1 (amended): for every configuration, PT table, decision row,
pressure and pipe size for which the steam-trap-type and PT lookups
succeed, build_downlinks (with the conditional reset command) returns
exactly 14 commands when the reset-counters flag is unset and exactly 15
when it is set, in the fixed order fast-uplink, steam-trap-type,
saturated-temperature, two noise thresholds, six steam-loss commands,
two counter thresholds, optional reset, restore-uplink-frequency, and
two calls with identical inputs return identical sequences. -/
theorem c1_encode_count_and_order (cfg : Config) (pt : List PTRow)
    (row : DecisionRow) (p : ℚ) (dn : Int) (st : SteamTrapTypes) (ptr : PTRow)
    (hst : SteamTrapTypes.get_member_by_description row.steamTrapType = Except.ok st)
    (hpt : nearestPT p pt = some ptr) :
    ∃ dls, build_downlinks cfg pt row p dn = Except.ok dls ∧
      dls = [hexPad (Nat.lor 0x01000000 149) 8,
        "0a5" ++ toString st.value,
        "82" ++ hexPad ptr.tCelsius 2,
        "830" ++ toString st.value ++ "00" ++ hexPad row.tv 2,
        "830" ++ toString st.value ++ "01" ++ hexPad row.lv 2,
        pyLower ("8d0" ++ toString st.value ++ "00" ++ hexPad row.slth0 2),
        pyLower ("8d0" ++ toString st.value ++ "01" ++ hexPad (row.slval0 *
          (if st.value = SteamTrapTypes.UNA.value ∧ dn ≥ 40 then 4 else 1)) 2),
        "8d0" ++ toString st.value ++ "02" ++ hexPad row.slth1 2,
        "8d0" ++ toString st.value ++ "03" ++ hexPad (row.slval1 *
          (if st.value = SteamTrapTypes.UNA.value ∧ dn ≥ 40 then 4 else 1)) 2,
        "8d0" ++ toString st.value ++ "04" ++ hexPad row.slth2 2,
        "8d0" ++ toString st.value ++ "05" ++ hexPad (row.slval2 *
          (if st.value = SteamTrapTypes.UNA.value ∧ dn ≥ 40 then 4 else 1)) 2,
        "8402" ++ hexPad 36 4,
        "8502" ++ hexPad 72 4]
        ++ (if cfg.resetErrorCounters then ["04fc"] else [])
        ++ [hexPad (Nat.lor 0x01000000 cfg.uplinkFrequency) 8] ∧
      dls.length = (if cfg.resetErrorCounters then 15 else 14) ∧
      ∀ dls2, build_downlinks cfg pt row p dn = Except.ok dls2 → dls2 = dls := by
  refine ⟨_, build_downlinks_eq cfg pt row p dn st ptr hst hpt, rfl, ?_, ?_⟩
  · cases hb : cfg.resetErrorCounters <;> simp [hb]
  · intro dls2 h2
    rw [build_downlinks_eq cfg pt row p dn st ptr hst hpt] at h2
    injection h2 with h2
    exact h2.symm

/-- Witness for C1 at a concrete input: the encoder succeeds and with the
reset flag set its output has 15 commands. -/
theorem c1_encode_count_and_order_witness :
    SteamTrapTypes.get_member_by_description rowEx.steamTrapType =
      Except.ok SteamTrapTypes.UNA ∧
    nearestPT 5 ptEx = some ⟨5, 158⟩ ∧
    ∃ dls, build_downlinks cfgEx ptEx rowEx 5 50 = Except.ok dls ∧
      dls.length = 15 := by
  refine ⟨rfl, rfl, ?_⟩
  obtain ⟨dls, hok, _, hlen, _⟩ :=
    c1_encode_count_and_order cfgEx ptEx rowEx 5 50 SteamTrapTypes.UNA
      ⟨5, 158⟩ rfl rfl
  exact ⟨dls, hok, hlen⟩

/-- Counterexample for C1 as stated: at a concrete input with the
reset-counters flag set, the encoder returns 15 commands, not 11. -/
theorem c1_command_count_counterexample :
    (build_downlinks cfgEx ptEx rowEx 5 50).map List.length = Except.ok 15 ∧
    (build_downlinks cfgEx ptEx rowEx 5 50).map List.length ≠ Except.ok 11 := by
  constructor
  · rfl
  · intro h
    rw [show (build_downlinks cfgEx ptEx rowEx 5 50).map List.length =
      Except.ok 15 from rfl] at h
    injection h with h
    omega

/-- Claim C2 (code evaluation): the padding examples with width None hold,
but tohex 256 2 returns the three-digit string 100 and raises nothing,
because the width check compares the requested width with the constant
length of the slice hex(value)[:2] instead of the digit count. -/
theorem c2_tohex_overflow_eval :
    tohex 0 none = Except.ok "00" ∧ tohex 255 none = Except.ok "ff" ∧
    tohex 256 (some 2) = Except.ok "100" ∧
    ∀ s, tohex 256 (some 2) ≠ Except.error s := by
  refine ⟨rfl, rfl, rfl, ?_⟩
  intro s h
  rw [show tohex 256 (some 2) = Except.ok "100" from rfl] at h
  exact Except.noConfusion h

/-- Claim C3 (amended): in the six steam-loss commands the correction
factor (4 exactly when the steam-trap type is the ball-float type UNA
with index 2 and the pipe size is at least 40, else 1) multiplies the
band values slval0, slval1 and slval2 alike, while the thresholds
slth0, slth1, slth2 are never multiplied. -/
theorem c3_correction_factor_all_bands (cfg : Config) (pt : List PTRow)
    (row : DecisionRow) (p : ℚ) (dn : Int) (st : SteamTrapTypes) (ptr : PTRow)
    (hst : SteamTrapTypes.get_member_by_description row.steamTrapType = Except.ok st)
    (hpt : nearestPT p pt = some ptr) :
    ∃ dls, build_downlinks cfg pt row p dn = Except.ok dls ∧
      dls.get? 5 = some (pyLower ("8d0" ++ toString st.value ++ "00" ++
        hexPad row.slth0 2)) ∧
      dls.get? 6 = some (pyLower ("8d0" ++ toString st.value ++ "01" ++
        hexPad (row.slval0 *
          (if st.value = SteamTrapTypes.UNA.value ∧ dn ≥ 40 then 4 else 1)) 2)) ∧
      dls.get? 7 = some ("8d0" ++ toString st.value ++ "02" ++
        hexPad row.slth1 2) ∧
      dls.get? 8 = some ("8d0" ++ toString st.value ++ "03" ++
        hexPad (row.slval1 *
          (if st.value = SteamTrapTypes.UNA.value ∧ dn ≥ 40 then 4 else 1)) 2) ∧
      dls.get? 9 = some ("8d0" ++ toString st.value ++ "04" ++
        hexPad row.slth2 2) ∧
      dls.get? 10 = some ("8d0" ++ toString st.value ++ "05" ++
        hexPad (row.slval2 *
          (if st.value = SteamTrapTypes.UNA.value ∧ dn ≥ 40 then 4 else 1)) 2) :=
  ⟨_, build_downlinks_eq cfg pt row p dn st ptr hst hpt,
    rfl, rfl, rfl, rfl, rfl, rfl⟩

/-- Witness for C3 at a concrete input: ball-float trap at pipe size 40,
slval1 = 3 is encoded as 12 = 3 * 4 in command 8d02030c. -/
theorem c3_correction_factor_all_bands_witness :
    SteamTrapTypes.get_member_by_description rowEx.steamTrapType =
      Except.ok SteamTrapTypes.UNA ∧
    nearestPT 5 ptEx = some ⟨5, 158⟩ ∧
    ∃ dls, build_downlinks cfgEx ptEx rowEx 5 40 = Except.ok dls ∧
      dls.get? 8 = some "8d02030c" := by
  refine ⟨rfl, rfl, ?_⟩
  obtain ⟨dls, hok, _, _, _, h8, _, _⟩ :=
    c3_correction_factor_all_bands cfgEx ptEx rowEx 5 40 SteamTrapTypes.UNA
      ⟨5, 158⟩ rfl rfl
  exact ⟨dls, hok, h8⟩

/-- Counterexample for C3 as stated: at steam-trap UNA with pipe size 40
and slval1 = 3, the ninth command encodes slval1 * 4 = 12 as 8d02030c,
not the unmultiplied slval1 = 3 as 8d020303. -/
theorem c3_band1_counterexample :
    (build_downlinks cfgEx ptEx rowEx 5 40).map (fun l => l.get? 8) =
      Except.ok (some "8d02030c") ∧
    ("8d02030c" : String) ≠ "8d020303" := by
  exact ⟨rfl, by decide⟩

/-- Claim C4 (code evaluation): a first matched device on server host
gateway creates one server block, but appending a second device with the
same server host string hits the existing-server branch, whose call
passes four positional arguments to the three-parameter build_downlinks
and therefore raises TypeError instead of appending the entry. -/
theorem c4_same_host_typeerror_eval :
    (add_device_downlinks cfgEx ptEx [] devEx rowEx).isOk = true ∧
    (add_device_downlinks cfgEx ptEx [] devEx rowEx).bind
        (fun d => add_device_downlinks cfgEx ptEx d devEx2 rowEx) =
      Except.error
        "TypeError: build_downlinks takes 3 positional arguments but 4 were given" :=
  ⟨rfl, rfl⟩

/-- Claim C5 (confirmed): the matcher returns the first decision row, in
table order, whose four categorical keys equal those of the device and
whose inclusive pressure window contains the device pressure, with every
earlier row failing the full match; it returns none exactly when no row
satisfies both conditions. -/
theorem c5_first_match_wins (dev : DeviceSpec) (tbl : List DecisionRow) :
    (∀ r, matchDecision dev tbl = some r →
      ∃ i, tbl.get? i = some r ∧
        (dev.steamTrapType = r.steamTrapType ∧ dev.mountingType = r.mountingType ∧
         dev.hardwareModel = r.hardwareModel ∧ dev.condensateLoad = r.condensateLoad ∧
         r.pMin ≤ dev.differentialPressure ∧ dev.differentialPressure ≤ r.pMax) ∧
        ∀ j, j < i → ∀ r2, tbl.get? j = some r2 → fullMatch dev r2 = false) ∧
    (matchDecision dev tbl = none ↔ ∀ r ∈ tbl, fullMatch dev r = false) := by
  induction tbl with
  | nil =>
      constructor
      · intro r h; simp [matchDecision] at h
      · simp [matchDecision]
  | cons a as ih =>
      by_cases hf : fullMatch dev a
      · constructor
        · intro r h
          simp only [matchDecision, hf, if_true] at h
          injection h with h; subst h
          exact ⟨0, rfl, (fullMatch_iff dev _).mp hf, by intro j hj; omega⟩
        · constructor
          · intro h; simp [matchDecision, hf] at h
          · intro h
            exact absurd hf (by simp [h a (List.mem_cons_self a as)])
      · have hstep : matchDecision dev (a :: as) = matchDecision dev as := by
          simp [matchDecision, hf]
        constructor
        · intro r h
          rw [hstep] at h
          obtain ⟨i, hget, hprops, hearlier⟩ := ih.1 r h
          refine ⟨i + 1, hget, hprops, ?_⟩
          intro j hj r2 hr2
          cases j with
          | zero =>
              simp only [List.get?] at hr2
              injection hr2 with hr2; subst hr2
              exact Bool.eq_false_iff.mpr hf
          | succ k => exact hearlier k (by omega) r2 hr2
        · rw [hstep]
          constructor
          · intro h r hr
            rcases List.mem_cons.mp hr with h1 | h1
            · subst h1; exact Bool.eq_false_iff.mpr hf
            · exact ih.2.mp h r h1
          · intro h
            exact ih.2.mpr (fun r hr => h r (List.mem_cons_of_mem a hr))

/-- Witness for C5 at a concrete input: devEx matches the second row of
a two-row table at index 1, the first row failing the full match. -/
theorem c5_first_match_wins_witness :
    ∃ i, [rowCatFail, rowEx].get? i = some rowEx ∧
      (devEx.steamTrapType = rowEx.steamTrapType ∧
       devEx.mountingType = rowEx.mountingType ∧
       devEx.hardwareModel = rowEx.hardwareModel ∧
       devEx.condensateLoad = rowEx.condensateLoad ∧
       rowEx.pMin ≤ devEx.differentialPressure ∧
       devEx.differentialPressure ≤ rowEx.pMax) ∧
      ∀ j, j < i → ∀ r2, [rowCatFail, rowEx].get? j = some r2 →
        fullMatch devEx r2 = false :=
  (c5_first_match_wins devEx [rowCatFail, rowEx]).1 rowEx rfl

/-- Claim C6 (code evaluation): for a device with no full match whose
last decision row passes the categorical layer but fails the pressure
window, the main loop emits the no-full-match warning twice (once from
the last-row pressure branch and once from the for-else clause), not
exactly once. -/
theorem c6_duplicate_warning_eval :
    matchDecision devEx [rowCatFail, rowPressFail] = none ∧
    deviceWarnings devEx [rowCatFail, rowPressFail] = 2 :=
  ⟨rfl, rfl⟩

/-- Claim C7 (code evaluation): the scheme-stripped string is discarded
before the split, so the block host for the server string http://myhost
is http with port string //myhost rather than myhost with the ug6x port
8080; the colon-free and host:port forms behave as described. -/
theorem c7_scheme_not_stripped_eval :
    parse_server_address cfgEx "http://myhost" =
      Except.ok ("http", PyPort.str "//myhost") ∧
    parse_server_address cfgEx "myhost" =
      Except.ok ("myhost", PyPort.num 8080) ∧
    parse_server_address cfgEx "myhost:8080" =
      Except.ok ("myhost", PyPort.str "8080") ∧
    ("http" : String) ≠ "myhost" :=
  ⟨rfl, rfl, rfl, by decide⟩

/-- Claim C8 (code evaluation): a login answered with HTTP 401 makes the
wrapped call return None, so the status_code attribute access raises an
uncaught AttributeError that aborts the whole run before any later
server is processed; with successful logins a single failing enqueue
call is skipped and the two remaining downlinks across both servers are
still queued. -/
theorem c8_login_failure_aborts_eval :
    process_all wBad [sEx1, sEx2] =
      Except.error
        "AttributeError: NoneType object has no attribute status_code" ∧
    process_all wGood [sEx1, sEx2] = Except.ok 2 :=
  ⟨rfl, rfl⟩

/-- Claim C9 (confirmed): for every target pressure and non-empty PT
table, the nearest lookup returns a row minimizing the absolute pressure
difference, and every row at a strictly smaller index has a strictly
larger difference, so ties resolve to the lowest table index. -/
theorem c9_nearest_first_minimum (p : ℚ) (tbl : List PTRow) (h : tbl ≠ []) :
    ∃ i r, nearestPT p tbl = some r ∧ tbl.get? i = some r ∧
      (∀ r2 ∈ tbl, |r.pBar - p| ≤ |r2.pBar - p|) ∧
      (∀ j, j < i → ∀ r2, tbl.get? j = some r2 →
        |r.pBar - p| < |r2.pBar - p|) := by
  induction tbl with
  | nil => exact absurd rfl h
  | cons a as ih =>
      cases hrs : nearestPT p as with
      | none =>
          have has : as = [] := (nearestPT_eq_none_iff p as).mp hrs
          subst has
          refine ⟨0, a, ?_, rfl, ?_, ?_⟩
          · simp [nearestPT]
          · intro r2 hr2
            rcases List.mem_singleton.mp hr2 with h1
            subst h1; exact le_refl _
          · intro j hj; omega
      | some b =>
          have hne : as ≠ [] := by
            intro hh; subst hh; simp [nearestPT] at hrs
          obtain ⟨i, r, hr, hget, hmin, hstrict⟩ := ih hne
          rw [hrs] at hr; injection hr with hr; subst hr
          by_cases hc : |b.pBar - p| < |a.pBar - p|
          · refine ⟨i + 1, b, ?_, hget, ?_, ?_⟩
            · simp only [nearestPT, hrs, hc, if_true]
            · intro r2 hr2
              rcases List.mem_cons.mp hr2 with h1 | h1
              · subst h1; exact le_of_lt hc
              · exact hmin r2 h1
            · intro j hj r2 hr2
              cases j with
              | zero =>
                  simp only [List.get?] at hr2
                  injection hr2 with hr2; subst hr2; exact hc
              | succ k => exact hstrict k (by omega) r2 hr2
          · refine ⟨0, a, ?_, rfl, ?_, ?_⟩
            · simp only [nearestPT, hrs, hc, if_false]
            · intro r2 hr2
              rcases List.mem_cons.mp hr2 with h1 | h1
              · subst h1; exact le_refl _
              · exact le_trans (not_lt.mp hc) (hmin r2 h1)
            · intro j hj; omega

/-- Witness for C9 at a concrete input: a table whose rows at 1 bar and
3 bar are equidistant from the target 2 bar; the lookup settles on a row
with the stated first-minimum properties. -/
theorem c9_nearest_first_minimum_witness :
    ∃ i r, nearestPT 2 ptTie = some r ∧ ptTie.get? i = some r ∧
      (∀ r2 ∈ ptTie, |r.pBar - 2| ≤ |r2.pBar - 2|) ∧
      (∀ j, j < i → ∀ r2, ptTie.get? j = some r2 →
        |r.pBar - 2| < |r2.pBar - 2|) :=
  c9_nearest_first_minimum 2 ptTie (by simp [ptTie])

/-- Claim C10 (confirmed): the ValueError branch of tohex is reachable
exactly for integer widths below 2; every integer width of at least 2
and the default width None return a string without raising, even when
the value needs more hex digits, as in tohex 256 2 = 100. -/
theorem c10_tohex_width_check_behavior :
    (∀ v : Nat, ∀ z : Int, ((tohex v (some z)).isOk = true ↔ 2 ≤ z)) ∧
    (∀ v : Nat, (tohex v none).isOk = true) ∧
    tohex 256 (some 2) = Except.ok "100" := by
  refine ⟨?_, ?_, rfl⟩
  · intro v z
    constructor
    · intro h
      by_contra hz
      rw [tohex_some_err v z (by omega)] at h
      exact absurd h (by decide)
    · intro hz
      rw [tohex_some_eq v z hz]
      rfl
  · intro v
    rw [tohex_none_eq]
    rfl
